import Mathlib

/-!
Shallow embedding of the two core components of the
Azure/azure-sdk-for-c-arduino examples:

* the JWS/JWK manifest authentication engine
  (`src/examples/Azure_IoT_Adu_ESP32/SampleAduJWS.cpp`), and
* the device connection state machine
  (`src/examples/Azure_IoT_Central_ESP32/AzureIoT.cpp`).

Byte buffers are modelled as `List Nat` (one entry per byte); `az_span`
values become such lists.  `az_result` becomes the inductive `AzResult`
below, keeping the codes the embedded code paths actually return.
External collaborators (mbedTLS RSA/SHA primitives, the az_core JSON
reader and base64 codecs, the MQTT transport callbacks, the wall clock)
are abstracted as explicit parameters, mirroring the repository's own
design in which they are external libraries or caller-supplied callbacks.
-/

namespace AduJws

/-- Result codes (`az_result`) returned by the embedded code paths.
`errOther` stands for any other az_core failure code propagated verbatim
(e.g. a JSON reader or base64 decoding error). -/
inductive AzResult where
  | ok                  -- AZ_OK
  | errUnexpectedChar   -- AZ_ERROR_UNEXPECTED_CHAR
  | errNotEnoughSpace   -- AZ_ERROR_NOT_ENOUGH_SPACE
  | errNotSupported     -- AZ_ERROR_NOT_SUPPORTED
  | errItemNotFound     -- AZ_ERROR_ITEM_NOT_FOUND
  | errJsonInvalidState -- AZ_ERROR_JSON_INVALID_STATE
  | errOther            -- any other propagated az_core error
deriving DecidableEq, Repr

/-- Size constant `jwsPKCS7_PAYLOAD_OFFSET` from `SampleAduJWS.h`. -/
def jwsPKCS7_PAYLOAD_OFFSET : Nat := 19

/-- Size constant from `SampleAduJWS.h`. -/
def jwsRSA3072_SIZE : Nat := 384

/-- Size constant from `SampleAduJWS.h`. -/
def jwsSHA256_SIZE : Nat := 32

/-- Size constant from `SampleAduJWS.h`. -/
def jwsJWS_HEADER_SIZE : Nat := 1400

/-- Size constant from `SampleAduJWS.h`. -/
def jwsJWS_PAYLOAD_SIZE : Nat := 60

/-- Size constant from `SampleAduJWS.h`. -/
def jwsJWK_HEADER_SIZE : Nat := 48

/-- Size constant from `SampleAduJWS.h`. -/
def jwsJWK_PAYLOAD_SIZE : Nat := 700

/-- Size constant from `SampleAduJWS.h`. -/
def jwsSIGNATURE_SIZE : Nat := 400

/-- Size constant from `SampleAduJWS.h`. -/
def jwsSIGNING_KEY_E_SIZE : Nat := 10

/-- Size constant from `SampleAduJWS.h`. -/
def jwsSIGNING_KEY_N_SIZE : Nat := jwsRSA3072_SIZE

/-- Size constant `jwsSHA_CALCULATION_SCRATCH_SIZE` from `SampleAduJWS.h`:
`jwsRSA3072_SIZE + jwsSHA256_SIZE` = 416. -/
def jwsSHA_CALCULATION_SCRATCH_SIZE : Nat := jwsRSA3072_SIZE + jwsSHA256_SIZE

/-- Documented minimum scratch size `jwsSCRATCH_BUFFER_SIZE`
(SampleAduJWS.h, lines 34-36) = 3358. -/
def jwsSCRATCH_BUFFER_SIZE : Nat :=
  jwsJWS_HEADER_SIZE + jwsJWK_HEADER_SIZE + jwsJWK_PAYLOAD_SIZE + jwsSIGNATURE_SIZE
    + jwsSIGNING_KEY_N_SIZE + jwsSIGNING_KEY_E_SIZE + jwsSHA_CALCULATION_SCRATCH_SIZE

/-- The byte value of the character `.` (0x2E), the JWS segment delimiter. -/
def dotByte : Nat := 46

/-- Indices (from the start of the span) at which a `.` byte occurs, in
increasing order.  This models the scanning loop of `split_jws`, which
records `first_dot` and `second_dot` while counting every dot. -/
def dotPositions : List Nat → List Nat
  | [] => []
  | c :: rest =>
    if c = dotByte then 0 :: (dotPositions rest).map (· + 1)
    else (dotPositions rest).map (· + 1)

/-- Model of `split_jws` (SampleAduJWS.cpp, lines 79-128): scan the input
counting `.` bytes.  It fails (`AZ_ERROR_UNEXPECTED_CHAR`, here `none`)
unless exactly two dots occur, and also fails when the second dot is the
last byte (`second_dot >= ptr + length - 1`).  On success the three
segments are `[0, first)`, `(first, second)` and `(second, length)`. -/
def split_jws (s : List Nat) : Option (List Nat × List Nat × List Nat) :=
  match dotPositions s with
  | [i, j] =>
    if j = s.length - 1 then none
    else some (s.take i, (s.drop (i + 1)).take (j - i - 1), s.drop (j + 1))
  | _ => none

/-- Model of `az_span_is_content_equal`: equal sizes and equal bytes,
i.e. list equality. -/
def az_span_is_content_equal (a b : List Nat) : Bool := a == b

/-- Structure `SampleJWS::RootKey` (SampleAduJWS.h, lines 44-49). -/
structure RootKey where
  root_key_id : List Nat
  root_key_n : List Nat
  root_key_exponent : List Nat
deriving DecidableEq, Repr

/-- The linear scan loop of `validate_root_key` (SampleAduJWS.cpp, lines
663-670) over the `root_key_id` spans: return the index of the first id
byte-for-byte equal to the kid, `none` when no key matches. -/
def root_key_scan : List (List Nat) → List Nat → Option Nat
  | [], _ => none
  | k :: rest, kid =>
    if az_span_is_content_equal k kid then some 0
    else (root_key_scan rest kid).map (· + 1)

/-- Model of `validate_root_key` (SampleAduJWS.cpp, lines 640-673): parse
the decoded JWK header for the `kid` property (`az_json_reader_init` +
`find_root_key_value`, abstracted as `findKid`; failure reported as
`AZ_ERROR_ITEM_NOT_FOUND`), then scan the caller's root-key array
linearly; `AZ_ERROR_NOT_SUPPORTED` when no key matches. -/
def validate_root_key (findKid : List Nat → Option (List Nat)) (jwkHeader : List Nat)
    (rootKeys : List RootKey) : Except AzResult Nat :=
  match findKid jwkHeader with
  | none => .error .errItemNotFound
  | some kid =>
    match root_key_scan (rootKeys.map (·.root_key_id)) kid with
    | some i => .ok i
    | none => .error .errNotSupported

/-- The literal `"RS256"` (`jws_alg_rs256`, SampleAduJWS.cpp line 38). -/
def jws_alg_rs256 : List Nat := [82, 83, 50, 53, 54]

/-- External cryptographic collaborators (mbedTLS) used by
`jws_rs256_verify`: `sha256` computes the 32-byte digest of its input;
`rsaImportOk`, `rsaCompleteOk` and `rsaCheckPubkeyOk` are the outcomes of
`mbedtls_rsa_import_raw`, `mbedtls_rsa_complete` and
`mbedtls_rsa_check_pubkey` on the raw key (n, e); `rsaDecrypt n e sig` is
the PKCS#1 v1.5 public decryption of `sig` (the buffer written by
`mbedtls_rsa_pkcs1_decrypt`), `none` on failure. -/
structure CryptoModel where
  sha256 : List Nat → List Nat
  rsaImportOk : List Nat → List Nat → Bool
  rsaCompleteOk : List Nat → List Nat → Bool
  rsaCheckPubkeyOk : List Nat → List Nat → Bool
  rsaDecrypt : List Nat → List Nat → List Nat → Option (List Nat)

/-- Model of `jws_rs256_verify` (SampleAduJWS.cpp, lines 194-299),
translated faithfully, including its final `return AZ_OK`: after a
successful RSA decryption the digest comparison (`memcmp` at the fixed
`jwsPKCS7_PAYLOAD_OFFSET`) only assigns the local `result`
(`AZ_ERROR_NOT_SUPPORTED` on mismatch) and logs, but the function then
returns `AZ_OK` unconditionally, discarding `result`.
(`jws_sha256_calculate` always returns `AZ_OK`, so its failure branch is
dead code and has no counterpart here.) -/
def jws_rs256_verify (crypto : CryptoModel) (input signature n e : List Nat)
    (bufferSize : Nat) : AzResult :=
  if bufferSize < jwsSHA_CALCULATION_SCRATCH_SIZE then .errNotEnoughSpace
  else if !crypto.rsaImportOk n e then .errNotSupported
  else if !crypto.rsaCompleteOk n e then .errNotSupported
  else if !crypto.rsaCheckPubkeyOk n e then .errNotSupported
  else
    match crypto.rsaDecrypt n e signature with
    | none => .errNotSupported
    | some decrypted =>
      let shaMismatch : Bool :=
        (decrypted.drop jwsPKCS7_PAYLOAD_OFFSET).take jwsSHA256_SIZE != crypto.sha256 input
      let _result : AzResult := if shaMismatch then .errNotSupported else .ok
      .ok

/-- Scratch-buffer writes performed by a `jws_rs256_verify` call whose
buffer-size check passed (both call sites pass a sub-span of exactly
`jwsSHA_CALCULATION_SCRATCH_SIZE` bytes): the decrypted signature at the
start of the sub-buffer, then the computed SHA-256 at offset
`jwsRSA3072_SIZE`.  `ofs` is the sub-buffer's offset inside the caller's
scratch buffer. -/
def rs256_writes (crypto : CryptoModel) (signature n e : List Nat) (ofs : Nat) :
    List (Nat × Nat) :=
  if crypto.rsaImportOk n e && crypto.rsaCompleteOk n e && crypto.rsaCheckPubkeyOk n e then
    match crypto.rsaDecrypt n e signature with
    | some d => [(ofs, d.length), (ofs + jwsRSA3072_SIZE, jwsSHA256_SIZE)]
    | none => []
  else []

/-- Abstraction of the az_core helpers used by `ManifestAuthenticate`:
`b64urlDecode` is `az_base64_url_decode` and `b64Decode` is
`az_base64_decode` (`none` = malformed input; both az_core functions check
the decoded size against the destination span before writing and return
`AZ_ERROR_NOT_ENOUGH_SPACE` when it does not fit — against the span's
declared capacity, not the caller's real buffer).  `findSjwk`, `findKid`,
`findKeyParts` and `findSha` are the az_json_reader walks `find_sjwk_value`,
`find_root_key_value`, `find_key_parts` and `find_manifest_sha` over
decoded JSON bytes (`none` covers any of their failure modes, including a
failing `az_json_reader_init`). -/
structure JsonB64Model where
  b64urlDecode : List Nat → Option (List Nat)
  b64Decode : List Nat → Option (List Nat)
  findSjwk : List Nat → Option (List Nat)
  findKid : List Nat → Option (List Nat)
  findKeyParts : List Nat → Option (List Nat × List Nat × List Nat)
  findSha : List Nat → Option (List Nat)

/-- Start of the reusable scratch region
(`reusable_scratch_space_root`, SampleAduJWS.cpp lines 766-767):
`jwsJWS_HEADER_SIZE + jwsJWK_PAYLOAD_SIZE` = 2100. -/
def reusableRootOfs : Nat := jwsJWS_HEADER_SIZE + jwsJWK_PAYLOAD_SIZE

/-- Fixed scratch offset of the decoded JWK header (2100). -/
def ofsJwkHeader : Nat := reusableRootOfs

/-- Fixed scratch offset of the decoded JWK payload (1400, persistent). -/
def ofsJwkPayload : Nat := jwsJWS_HEADER_SIZE

/-- Fixed scratch offset of the decoded JWK signature (2148). -/
def ofsJwkSignature : Nat := reusableRootOfs + jwsJWK_HEADER_SIZE

/-- Fixed scratch offset of the RSA calculation sub-buffer (2548), used by
both `jws_rs256_verify` calls. -/
def ofsScratchCalc : Nat := reusableRootOfs + jwsJWK_HEADER_SIZE + jwsSIGNATURE_SIZE

/-- Fixed scratch offset of the decoded outer JWS payload (2100, after the
reusable head is reset). -/
def ofsJwsPayload : Nat := reusableRootOfs

/-- Fixed scratch offset of the decoded outer JWS signature (2160). -/
def ofsJwsSignature : Nat := reusableRootOfs + jwsJWS_PAYLOAD_SIZE

/-- Fixed scratch offset of the decoded signing-key modulus (2560). -/
def ofsSigningKeyN : Nat := ofsJwsSignature + jwsSIGNATURE_SIZE

/-- Fixed scratch offset of the decoded signing-key exponent (2944). -/
def ofsSigningKeyE : Nat := ofsSigningKeyN + jwsRSA3072_SIZE

/-- Fixed scratch offset of the computed manifest SHA-256 (2954). -/
def ofsShaCalc : Nat := ofsSigningKeyE + jwsSIGNING_KEY_E_SIZE

/-- Fixed scratch offset of the base64-decoded claimed SHA-256 (2986). -/
def ofsParsedSha : Nat := ofsShaCalc + jwsSHA256_SIZE

/-- Observable outcome of `ManifestAuthenticate`: the returned `az_result`;
the `alg_span` field of the `jws_validation_context` (set once
`find_key_parts` succeeds); and the log of (offset, length) ranges written
into the caller's scratch buffer, in program order. -/
structure AuthOutcome where
  result : AzResult
  algSpan : Option (List Nat)
  writes : List (Nat × Nat)
deriving DecidableEq, Repr

/-- Tail of `ManifestAuthenticate` after the first (signing-key)
`jws_rs256_verify` succeeded (SampleAduJWS.cpp lines 909-982):
`base64_decode_jws_header_and_payload`, `base64_decode_signing_key`, the
`alg` equality check against `"RS256"`, the second `jws_rs256_verify`, and
`verify_sha_match`.  `ws1` is the write log accumulated so far; `algSpan`
is the `alg_span` already recorded in the validation context. -/
def manifest_authenticate_tail (crypto : CryptoModel) (jm : JsonB64Model)
    (manifest : List Nat) (b64Header b64Payload b64Signature b64N b64E : List Nat)
    (algSpan : List Nat) (ws1 : List (Nat × Nat)) : AuthOutcome :=
  match jm.b64urlDecode b64Payload with
  | none => ⟨.errOther, some algSpan, ws1⟩
  | some jwsPayload =>
    if jwsJWS_PAYLOAD_SIZE < jwsPayload.length then ⟨.errNotEnoughSpace, some algSpan, ws1⟩
    else
      match jm.b64urlDecode b64Signature with
      | none => ⟨.errOther, some algSpan, ws1 ++ [(ofsJwsPayload, jwsPayload.length)]⟩
      | some jwsSignature =>
        if jwsSIGNATURE_SIZE < jwsSignature.length then
          ⟨.errNotEnoughSpace, some algSpan, ws1 ++ [(ofsJwsPayload, jwsPayload.length)]⟩
        else
          match jm.b64Decode b64N with
          | none => ⟨.errOther, some algSpan,
              ws1 ++ [(ofsJwsPayload, jwsPayload.length),
                (ofsJwsSignature, jwsSignature.length)]⟩
          | some signingKeyN =>
            if jwsRSA3072_SIZE < signingKeyN.length then
              ⟨.errNotEnoughSpace, some algSpan,
                ws1 ++ [(ofsJwsPayload, jwsPayload.length),
                  (ofsJwsSignature, jwsSignature.length)]⟩
            else
              match jm.b64Decode b64E with
              | none => ⟨.errOther, some algSpan,
                  ws1 ++ [(ofsJwsPayload, jwsPayload.length),
                    (ofsJwsSignature, jwsSignature.length),
                    (ofsSigningKeyN, signingKeyN.length)]⟩
              | some signingKeyE =>
                if jwsSIGNING_KEY_E_SIZE < signingKeyE.length then
                  ⟨.errNotEnoughSpace, some algSpan,
                    ws1 ++ [(ofsJwsPayload, jwsPayload.length),
                      (ofsJwsSignature, jwsSignature.length),
                      (ofsSigningKeyN, signingKeyN.length)]⟩
                else
                  if !az_span_is_content_equal algSpan jws_alg_rs256 then
                    ⟨.errNotSupported, some algSpan,
                      ws1 ++ [(ofsJwsPayload, jwsPayload.length),
                        (ofsJwsSignature, jwsSignature.length),
                        (ofsSigningKeyN, signingKeyN.length),
                        (ofsSigningKeyE, signingKeyE.length)]⟩
                  else
                    match jws_rs256_verify crypto (b64Header ++ dotByte :: b64Payload)
                        jwsSignature signingKeyN signingKeyE
                        jwsSHA_CALCULATION_SCRATCH_SIZE with
                    | .ok =>
                      match jm.findSha jwsPayload with
                      | none => ⟨.errItemNotFound, some algSpan,
                          ws1 ++ [(ofsJwsPayload, jwsPayload.length),
                            (ofsJwsSignature, jwsSignature.length),
                            (ofsSigningKeyN, signingKeyN.length),
                            (ofsSigningKeyE, signingKeyE.length)]
                            ++ rs256_writes crypto jwsSignature signingKeyN signingKeyE
                              ofsScratchCalc
                            ++ [(ofsShaCalc, jwsSHA256_SIZE)]⟩
                      | some b64Sha =>
                        match jm.b64Decode b64Sha with
                        | none => ⟨.errOther, some algSpan,
                            ws1 ++ [(ofsJwsPayload, jwsPayload.length),
                              (ofsJwsSignature, jwsSignature.length),
                              (ofsSigningKeyN, signingKeyN.length),
                              (ofsSigningKeyE, signingKeyE.length)]
                              ++ rs256_writes crypto jwsSignature signingKeyN signingKeyE
                                ofsScratchCalc
                              ++ [(ofsShaCalc, jwsSHA256_SIZE)]⟩
                        | some parsedSha =>
                          if jwsSHA256_SIZE < parsedSha.length then
                            ⟨.errNotEnoughSpace, some algSpan,
                              ws1 ++ [(ofsJwsPayload, jwsPayload.length),
                                (ofsJwsSignature, jwsSignature.length),
                                (ofsSigningKeyN, signingKeyN.length),
                                (ofsSigningKeyE, signingKeyE.length)]
                                ++ rs256_writes crypto jwsSignature signingKeyN signingKeyE
                                  ofsScratchCalc
                                ++ [(ofsShaCalc, jwsSHA256_SIZE)]⟩
                          else
                            if parsedSha.length ≠ jwsSHA256_SIZE then
                              ⟨.errItemNotFound, some algSpan,
                                ws1 ++ [(ofsJwsPayload, jwsPayload.length),
                                  (ofsJwsSignature, jwsSignature.length),
                                  (ofsSigningKeyN, signingKeyN.length),
                                  (ofsSigningKeyE, signingKeyE.length)]
                                  ++ rs256_writes crypto jwsSignature signingKeyN signingKeyE
                                    ofsScratchCalc
                                  ++ [(ofsShaCalc, jwsSHA256_SIZE),
                                    (ofsParsedSha, parsedSha.length)]⟩
                            else
                              if crypto.sha256 manifest = parsedSha then
                                ⟨.ok, some algSpan,
                                  ws1 ++ [(ofsJwsPayload, jwsPayload.length),
                                    (ofsJwsSignature, jwsSignature.length),
                                    (ofsSigningKeyN, signingKeyN.length),
                                    (ofsSigningKeyE, signingKeyE.length)]
                                    ++ rs256_writes crypto jwsSignature signingKeyN signingKeyE
                                      ofsScratchCalc
                                    ++ [(ofsShaCalc, jwsSHA256_SIZE),
                                      (ofsParsedSha, parsedSha.length)]⟩
                              else
                                ⟨.errNotSupported, some algSpan,
                                  ws1 ++ [(ofsJwsPayload, jwsPayload.length),
                                    (ofsJwsSignature, jwsSignature.length),
                                    (ofsSigningKeyN, signingKeyN.length),
                                    (ofsSigningKeyE, signingKeyE.length)]
                                    ++ rs256_writes crypto jwsSignature signingKeyN signingKeyE
                                      ofsScratchCalc
                                    ++ [(ofsShaCalc, jwsSHA256_SIZE),
                                      (ofsParsedSha, parsedSha.length)]⟩
                    | e => ⟨e, some algSpan,
                        ws1 ++ [(ofsJwsPayload, jwsPayload.length),
                          (ofsJwsSignature, jwsSignature.length),
                          (ofsSigningKeyN, signingKeyN.length),
                          (ofsSigningKeyE, signingKeyE.length)]
                          ++ rs256_writes crypto jwsSignature signingKeyN signingKeyE
                            ofsScratchCalc⟩

/-- Middle section of `ManifestAuthenticate` (SampleAduJWS.cpp lines
858-907): root-key validation (`validate_root_key`, inlined here as its
two stages — the `findKid` JSON walk, then the `root_key_scan` loop over
the root-key ids), `find_key_parts` on the decoded JWK payload, and the
first `jws_rs256_verify` over `jwk_base64_encoded_header ++ "." ++
jwk_base64_encoded_payload` with the matched root key.  `ws0` is the
write log accumulated so far. -/
def manifest_authenticate_verify (crypto : CryptoModel) (jm : JsonB64Model)
    (manifest : List Nat) (rootKeys : List RootKey)
    (b64Header b64Payload b64Signature : List Nat)
    (jwkB64Header jwkB64Payload : List Nat)
    (jwkHeader jwkPayload jwkSignature : List Nat)
    (ws0 : List (Nat × Nat)) : AuthOutcome :=
  match jm.findKid jwkHeader with
  | none => ⟨.errItemNotFound, none, ws0⟩
  | some kid =>
    match root_key_scan (rootKeys.map (·.root_key_id)) kid with
    | none => ⟨.errNotSupported, none, ws0⟩
    | some rootKeyIndex =>
      match jm.findKeyParts jwkPayload with
      | none => ⟨.errItemNotFound, none, ws0⟩
      | some (b64N, b64E, algSpan) =>
        match jws_rs256_verify crypto (jwkB64Header ++ dotByte :: jwkB64Payload) jwkSignature
            (rootKeys.getD rootKeyIndex ⟨[], [], []⟩).root_key_n
            (rootKeys.getD rootKeyIndex ⟨[], [], []⟩).root_key_exponent
            jwsSHA_CALCULATION_SCRATCH_SIZE with
        | .ok =>
          manifest_authenticate_tail crypto jm manifest
            b64Header b64Payload b64Signature b64N b64E algSpan
            (ws0 ++ rs256_writes crypto jwkSignature
              (rootKeys.getD rootKeyIndex ⟨[], [], []⟩).root_key_n
              (rootKeys.getD rootKeyIndex ⟨[], [], []⟩).root_key_exponent
              ofsScratchCalc)
        | e => ⟨e, some algSpan,
            ws0 ++ rs256_writes crypto jwkSignature
              (rootKeys.getD rootKeyIndex ⟨[], [], []⟩).root_key_n
              (rootKeys.getD rootKeyIndex ⟨[], [], []⟩).root_key_exponent
              ofsScratchCalc⟩

/-- Model of `SampleJWS::ManifestAuthenticate` (SampleAduJWS.cpp, lines
752-982): split the outer JWS, decode its header, locate `sjwk`, split
and decode the nested JWK token, then continue with
`manifest_authenticate_verify` and `manifest_authenticate_tail`.  The
scratch buffer is carved at the fixed offsets `ofs*` above
(`persistent_scratch_space_head` from offset 0,
`reusable_scratch_space_head` from `reusableRootOfs`, reset back after the
first `jws_rs256_verify`); the source never reads
`az_span_size(scratch_buffer_span)`, which is why `scratchBufferSize` is
never consulted: no comparison with `jwsSCRATCH_BUFFER_SIZE` (or anything
else) guards the writes. -/
def ManifestAuthenticate (crypto : CryptoModel) (jm : JsonB64Model)
    (manifest jws : List Nat) (rootKeys : List RootKey)
    (scratchBufferSize : Nat) : AuthOutcome :=
  match split_jws jws with
  | none => ⟨.errUnexpectedChar, none, []⟩
  | some (b64Header, b64Payload, b64Signature) =>
    match jm.b64urlDecode b64Header with
    | none => ⟨.errOther, none, []⟩
    | some jwsHeader =>
      if jwsJWS_HEADER_SIZE < jwsHeader.length then ⟨.errNotEnoughSpace, none, []⟩
      else
        match jm.findSjwk jwsHeader with
        | none => ⟨.errItemNotFound, none, [(0, jwsHeader.length)]⟩
        | some jwkManifest =>
          match split_jws jwkManifest with
          | none => ⟨.errUnexpectedChar, none, [(0, jwsHeader.length)]⟩
          | some (jwkB64Header, jwkB64Payload, jwkB64Signature) =>
            match jm.b64urlDecode jwkB64Header with
            | none => ⟨.errOther, none, [(0, jwsHeader.length)]⟩
            | some jwkHeader =>
              if jwsJWK_HEADER_SIZE < jwkHeader.length then
                ⟨.errNotEnoughSpace, none, [(0, jwsHeader.length)]⟩
              else
                match jm.b64urlDecode jwkB64Payload with
                | none => ⟨.errOther, none,
                    [(0, jwsHeader.length), (ofsJwkHeader, jwkHeader.length)]⟩
                | some jwkPayload =>
                  if jwsJWK_PAYLOAD_SIZE < jwkPayload.length then
                    ⟨.errNotEnoughSpace, none,
                      [(0, jwsHeader.length), (ofsJwkHeader, jwkHeader.length)]⟩
                  else
                    match jm.b64urlDecode jwkB64Signature with
                    | none => ⟨.errOther, none,
                        [(0, jwsHeader.length), (ofsJwkHeader, jwkHeader.length),
                         (ofsJwkPayload, jwkPayload.length)]⟩
                    | some jwkSignature =>
                      if jwsSIGNATURE_SIZE < jwkSignature.length then
                        ⟨.errNotEnoughSpace, none,
                          [(0, jwsHeader.length), (ofsJwkHeader, jwkHeader.length),
                           (ofsJwkPayload, jwkPayload.length)]⟩
                      else
                        manifest_authenticate_verify crypto jm manifest rootKeys
                          b64Header b64Payload b64Signature
                          jwkB64Header jwkB64Payload
                          jwkHeader jwkPayload jwkSignature
                          [(0, jwsHeader.length), (ofsJwkHeader, jwkHeader.length),
                           (ofsJwkPayload, jwkPayload.length),
                           (ofsJwkSignature, jwkSignature.length)]

/-- Property of an outcome: success is only reported when the recorded
`alg_span` is the literal `"RS256"`. -/
def resultImpliesRs256 (o : AuthOutcome) : Prop :=
  o.result = .ok → o.algSpan = some jws_alg_rs256

/-- Crypto collaborators for which every RSA step succeeds, decryption
yields an all-zero 384-byte buffer, and the computed SHA-256 digest is 32
one-bytes — so the digest recovered at `jwsPKCS7_PAYLOAD_OFFSET` (all
zero) differs from the computed digest. -/
def cryptoMismatchDemo : CryptoModel :=
  { sha256 := fun _ => List.replicate jwsSHA256_SIZE 1,
    rsaImportOk := fun _ _ => true,
    rsaCompleteOk := fun _ _ => true,
    rsaCheckPubkeyOk := fun _ _ => true,
    rsaDecrypt := fun _ _ _ => some (List.replicate jwsRSA3072_SIZE 0) }

/-- Crypto collaborators for which every RSA step succeeds and the
computed digest (all zero) agrees with the digest recovered from the
all-zero decrypted buffer. -/
def cryptoMatchDemo : CryptoModel :=
  { sha256 := fun _ => List.replicate jwsSHA256_SIZE 0,
    rsaImportOk := fun _ _ => true,
    rsaCompleteOk := fun _ _ => true,
    rsaCheckPubkeyOk := fun _ _ => true,
    rsaDecrypt := fun _ _ _ => some (List.replicate jwsRSA3072_SIZE 0) }

/-- JSON/base64 collaborators whose decoders are the identity and whose
`sjwk` lookup fails: the run stops right after the first scratch write. -/
def jmStubDemo : JsonB64Model :=
  { b64urlDecode := fun s => some s, b64Decode := fun s => some s,
    findSjwk := fun _ => none, findKid := fun _ => none,
    findKeyParts := fun _ => none, findSha := fun _ => none }

/-- JSON/base64 collaborators driving a complete successful run: the
nested token is `"d.e.f"`, the kid is `"A"`, the signing key parts are
(`n` = [1], `e` = [2], `alg` = `"RS256"`), and the claimed manifest digest
is the all-zero digest. -/
def jmFullDemo : JsonB64Model :=
  { b64urlDecode := fun s => some s, b64Decode := fun s => some s,
    findSjwk := fun _ => some [100, 46, 101, 46, 102],
    findKid := fun _ => some [65],
    findKeyParts := fun _ => some ([1], [2], jws_alg_rs256),
    findSha := fun _ => some (List.replicate jwsSHA256_SIZE 0) }

/-- A demo root key with id `"A"`. -/
def rootKeyDemo : RootKey := ⟨[65], [3], [4]⟩

end AduJws

/-!
Embedding of the device connection state machine of
`src/examples/Azure_IoT_Central_ESP32/AzureIoT.cpp`.  The MQTT transport,
the az_core topic/payload builders and the wall clock are caller-supplied
collaborators; their outcomes are abstracted as explicit boolean/number
parameters.  `CallRes.ok` stands for `RESULT_OK` (0) and `CallRes.err` for
`RESULT_ERROR` (`__LINE__`, always nonzero).
-/

namespace AzureIoTCore

/-- The `azure_iot_client_state_t` enum (AzureIoT.h, lines 401-423).
Constructor names shorten the `azure_iot_state_` prefix of the source
enum: `notInited` is the not-yet-set-up state `azure_iot_state_not_initialized`,
`inited` is `azure_iot_state_initialized`, `refreshingSas` is
`azure_iot_state_refreshing_sas`, and so on in source order. -/
inductive ClientState where
  | notInited
  | inited
  | started
  | connectingToDps
  | connectedToDps
  | subscribingToDps
  | subscribedToDps
  | provisioningQuerying
  | provisioningWaiting
  | provisioned
  | connectingToHub
  | connectedToHub
  | subscribingToPnpCmds
  | subscribedToPnpCmds
  | subscribingToPnpProps
  | subscribedToPnpProps
  | subscribingToPnpWritableProps
  | ready
  | refreshingSas
  | error
deriving DecidableEq, Repr

/-- Return codes of the public API: `ok` is `RESULT_OK` (0), `err` is
`RESULT_ERROR` (`__LINE__`, a nonzero line number). -/
inductive CallRes where
  | ok
  | err
deriving DecidableEq, Repr

/-- The `azure_iot_status_t` values reported by `azure_iot_get_status`. -/
inductive ConnStatus where
  | disconnected
  | connecting
  | connected
  | statusError
deriving DecidableEq, Repr

/-- Observable fields of `azure_iot_t` used by the embedded operations.
`mqttHandle` models `mqtt_client_handle != NULL`; `dpsOperationIdStored`
models `dps_operation_id != AZ_SPAN_EMPTY`; `deviceProvisioned` models the
`is_device_provisioned` macro (both `iot_hub_fqdn` and `device_id`
non-empty).  Times are `uint32_t` unix seconds. -/
structure AzureIoT where
  state : ClientState
  mqttHandle : Bool
  sasTokenExpirationTime : Nat
  dpsLastQueryTime : Nat
  dpsRetryAfterSeconds : Nat
  dpsOperationIdStored : Bool
  useDeviceProvisioning : Bool
  deviceProvisioned : Bool
deriving DecidableEq, Repr

/-- Constant `SAS_TOKEN_REFRESH_THRESHOLD_IN_SECS` (AzureIoT.h, line 66). -/
def SAS_TOKEN_REFRESH_THRESHOLD_IN_SECS : Nat := 30

/-- Model of `azure_iot_stop` (AzureIoT.cpp, lines 171-209).  `deinitOk`
is the outcome of the caller-supplied `mqtt_client_deinit` callback; the
third output component records whether that callback was invoked. -/
def azure_iot_stop (m : AzureIoT) (deinitOk : Bool) : AzureIoT × CallRes × Bool :=
  if m.state = .notInited then (m, .err, false)
  else if m.mqttHandle then
    if deinitOk then ({ m with state := .inited, mqttHandle := false }, .ok, true)
    else ({ m with state := .error, mqttHandle := false }, .err, true)
  else ({ m with state := .inited }, .ok, false)

/-- Model of `azure_iot_get_status` (AzureIoT.cpp, lines 211-251). -/
def azure_iot_get_status (m : AzureIoT) : ConnStatus :=
  match m.state with
  | .notInited | .inited => .disconnected
  | .ready => .connected
  | .error => .statusError
  | _ => .connecting

/-- Model of `azure_iot_mqtt_client_disconnected` (AzureIoT.cpp, lines
676-697). -/
def azure_iot_mqtt_client_disconnected (m : AzureIoT) : AzureIoT × CallRes :=
  if m.state = .refreshingSas then ({ m with state := .provisioned }, .ok)
  else ({ m with state := .inited }, .ok)

/-- Model of `azure_iot_mqtt_client_subscribe_completed` (AzureIoT.cpp,
lines 699-733).  The packet id is ignored by the source
(`(void)packet_id`). -/
def azure_iot_mqtt_client_subscribe_completed (m : AzureIoT) : AzureIoT × CallRes :=
  if m.state = .subscribingToDps then ({ m with state := .subscribedToDps }, .ok)
  else if m.state = .subscribingToPnpCmds then ({ m with state := .subscribedToPnpCmds }, .ok)
  else if m.state = .subscribingToPnpProps then ({ m with state := .subscribedToPnpProps }, .ok)
  else if m.state = .subscribingToPnpWritableProps then ({ m with state := .ready }, .ok)
  else (m, .err)

/-- Outcomes of the external collaborators consulted by one
`azure_iot_do_work` tick.  `now` is the value returned by
`get_current_unix_time` (0 when the wall clock is unavailable);
`configOk` covers `get_mqtt_client_config_for_dps`/`_for_iot_hub`;
`topicOk` covers the az_core topic-building calls; `payloadOk` covers the
payload building and buffer reservations of the `subscribed_to_dps`
branch; the remaining flags are the MQTT transport callbacks
(`packet_id >= 0` for subscribe/publish). -/
structure DoWorkEnv where
  now : Nat
  configOk : Bool
  mqttInitOk : Bool
  subscribeOk : Bool
  publishOk : Bool
  topicOk : Bool
  payloadOk : Bool
  deinitOk : Bool
deriving Repr

/-- Model of `azure_iot_do_work` (AzureIoT.cpp, lines 253-576); the
boolean output records whether the `mqtt_client_deinit` callback was
invoked during the tick.  The subtraction in the `ready` branch is the
source's `int64_t` arithmetic `(sas_token_expiration_time - now)` with
both `uint32_t` operands promoted, hence `Int` here. -/
def azure_iot_do_work (m : AzureIoT) (env : DoWorkEnv) : AzureIoT × Bool :=
  match m.state with
  | .notInited | .inited => (m, false)
  | .started =>
    if m.useDeviceProvisioning && !m.deviceProvisioned then
      if env.configOk && env.mqttInitOk then
        ({ m with state := .connectingToDps, mqttHandle := true }, false)
      else ({ m with state := .error }, false)
    else
      if env.configOk && env.mqttInitOk then
        ({ m with state := .connectingToHub, mqttHandle := true }, false)
      else ({ m with state := .error }, false)
  | .connectingToDps => (m, false)
  | .connectedToDps =>
    if env.subscribeOk then ({ m with state := .subscribingToDps }, false)
    else ({ m with state := .error }, false)
  | .subscribingToDps => (m, false)
  | .subscribedToDps =>
    if !env.topicOk then ({ m with state := .error }, false)
    else if !env.payloadOk then ({ m with state := .error }, false)
    else if env.publishOk then ({ m with state := .provisioningWaiting }, false)
    else ({ m with state := .error }, false)
  | .provisioningQuerying =>
    if env.now = 0 then ({ m with state := .error }, false)
    else if (Int.ofNat env.now - Int.ofNat m.dpsLastQueryTime)
        < Int.ofNat m.dpsRetryAfterSeconds then
      (m, false)
    else if !env.topicOk then ({ m with state := .error }, false)
    else if env.publishOk then
      ({ m with state := .provisioningWaiting, dpsLastQueryTime := env.now }, false)
    else ({ m with state := .error, dpsLastQueryTime := env.now }, false)
  | .provisioningWaiting => (m, false)
  | .provisioned =>
    if m.useDeviceProvisioning && m.mqttHandle && !env.deinitOk then
      ({ m with state := .error }, true)
    else
      let deinitCalled := m.useDeviceProvisioning && m.mqttHandle
      if !env.configOk then
        ({ m with mqttHandle := false, state := .error }, deinitCalled)
      else if env.mqttInitOk then
        ({ m with state := .connectingToHub, mqttHandle := true }, deinitCalled)
      else ({ m with mqttHandle := false, state := .error }, deinitCalled)
  | .connectingToHub => (m, false)
  | .connectedToHub =>
    if env.subscribeOk then ({ m with state := .subscribingToPnpCmds }, false)
    else ({ m with state := .error }, false)
  | .subscribingToPnpCmds => (m, false)
  | .subscribedToPnpCmds =>
    if env.subscribeOk then ({ m with state := .subscribingToPnpProps }, false)
    else ({ m with state := .error }, false)
  | .subscribingToPnpProps => (m, false)
  | .subscribedToPnpProps =>
    if env.subscribeOk then ({ m with state := .subscribingToPnpWritableProps }, false)
    else ({ m with state := .error }, false)
  | .subscribingToPnpWritableProps => (m, false)
  | .ready =>
    if env.now = 0 then ({ m with state := .error }, false)
    else if (Int.ofNat m.sasTokenExpirationTime - Int.ofNat env.now)
        < Int.ofNat SAS_TOKEN_REFRESH_THRESHOLD_IN_SECS then
      if env.deinitOk then ({ m with state := .refreshingSas, mqttHandle := false }, true)
      else ({ m with state := .error }, true)
    else (m, false)
  | .refreshingSas => (m, false)
  | .error => (m, false)

/-- Message type reported by
`az_iot_hub_client_properties_parse_received_topic`. -/
inductive PropMsgType where
  | getResponse
  | writableUpdated
  | acked
  | errorType
deriving DecidableEq, Repr

/-- Outcomes of the external parsing collaborators consulted by one
`azure_iot_mqtt_client_message_received` call.  The completion callbacks
are modelled as present (non-null), which `azure_iot_init` enforces. -/
structure MsgEnv where
  propTopicParseOk : Bool
  propMsgType : PropMsgType
  reqIdParseOk : Bool
  cmdTopicParseOk : Bool
  dpsParseOk : Bool
  operationComplete : Bool
  statusAssigned : Bool
  retryAfterSeconds : Nat
  opIdCopyOk : Bool
  fqdnCopyOk : Bool
  deviceIdCopyOk : Bool
deriving Repr

/-- Model of `azure_iot_mqtt_client_message_received` (AzureIoT.cpp,
lines 747-933).  In the `ready` branch the state is never modified; in
the `provisioning_waiting` branch a terminal non-assigned operation
status sets the state to `error` while still assigning
`result = RESULT_OK` (lines 918-923). -/
def azure_iot_mqtt_client_message_received (m : AzureIoT) (env : MsgEnv) : AzureIoT × CallRes :=
  if m.state = .ready then
    if env.propTopicParseOk then
      match env.propMsgType with
      | .getResponse => (m, .err)
      | .writableUpdated => (m, .ok)
      | .acked => if env.reqIdParseOk then (m, .ok) else (m, .err)
      | .errorType => (m, .err)
    else if env.cmdTopicParseOk then (m, .ok)
    else (m, .err)
  else if m.state = .provisioningWaiting then
    if !env.dpsParseOk then (m, .err)
    else if !env.operationComplete then
      if !m.dpsOperationIdStored then
        if env.opIdCopyOk then
          ({ m with dpsOperationIdStored := true,
                    dpsRetryAfterSeconds := env.retryAfterSeconds,
                    state := .provisioningQuerying }, .ok)
        else ({ m with state := .error }, .err)
      else
        ({ m with dpsRetryAfterSeconds := env.retryAfterSeconds,
                  state := .provisioningQuerying }, .ok)
    else if env.statusAssigned then
      if !env.fqdnCopyOk then ({ m with state := .error }, .err)
      else if !env.deviceIdCopyOk then ({ m with state := .error }, .err)
      else ({ m with state := .provisioned, deviceProvisioned := true }, .ok)
    else ({ m with state := .error }, .ok)
  else (m, .err)

/-- The four states of the subscribing chain recognised by
`azure_iot_mqtt_client_subscribe_completed`. -/
def subscribingChain : List ClientState :=
  [.subscribingToDps, .subscribingToPnpCmds, .subscribingToPnpProps,
   .subscribingToPnpWritableProps]

/-- A ready machine with a live transport handle (used as concrete input
for the `azure_iot_stop` and subscribe-ack theorems). -/
def stopCounterMachine : AzureIoT :=
  { state := .ready, mqttHandle := true, sasTokenExpirationTime := 0,
    dpsLastQueryTime := 0, dpsRetryAfterSeconds := 0, dpsOperationIdStored := false,
    useDeviceProvisioning := false, deviceProvisioned := false }

/-- A ready machine whose token is far from expiry (expiration 1000). -/
def readyTickMachine : AzureIoT :=
  { state := .ready, mqttHandle := true, sasTokenExpirationTime := 1000,
    dpsLastQueryTime := 0, dpsRetryAfterSeconds := 0, dpsOperationIdStored := false,
    useDeviceProvisioning := false, deviceProvisioned := false }

/-- A tick environment whose wall clock is unavailable
(`get_current_unix_time` returns 0); every other collaborator succeeds. -/
def clockFailEnv : DoWorkEnv :=
  { now := 0, configOk := true, mqttInitOk := true, subscribeOk := true,
    publishOk := true, topicOk := true, payloadOk := true, deinitOk := true }

/-- A machine waiting for the DPS provisioning response. -/
def provWaitingMachine : AzureIoT :=
  { state := .provisioningWaiting, mqttHandle := true, sasTokenExpirationTime := 0,
    dpsLastQueryTime := 0, dpsRetryAfterSeconds := 0, dpsOperationIdStored := true,
    useDeviceProvisioning := true, deviceProvisioned := false }

/-- A message environment delivering a parsed, terminal, non-assigned
provisioning response. -/
def provFailEnv : MsgEnv :=
  { propTopicParseOk := false, propMsgType := .getResponse, reqIdParseOk := false,
    cmdTopicParseOk := false, dpsParseOk := true, operationComplete := true,
    statusAssigned := false, retryAfterSeconds := 0, opIdCopyOk := true,
    fqdnCopyOk := true, deviceIdCopyOk := true }

end AzureIoTCore

/-!
Supporting lemmas for the JWS component.
-/

namespace AduJws

theorem dotPositions_length (s : List Nat) : (dotPositions s).length = s.count dotByte := by
  induction s with
  | nil => rfl
  | cons c rest ih =>
    by_cases hc : c = dotByte
    · simp [dotPositions, hc, List.count_cons, ih]
    · simp [dotPositions, hc, List.count_cons, ih, Ne.symm hc]

theorem mem_dotPositions (s : List Nat) (p : Nat) :
    p ∈ dotPositions s ↔ p < s.length ∧ s.getD p 0 = dotByte := by
  induction s generalizing p with
  | nil => simp [dotPositions]
  | cons c rest ih =>
    by_cases hc : c = dotByte
    · simp only [dotPositions, if_pos hc]
      cases p with
      | zero => simp [hc]
      | succ q =>
        have hmem : q + 1 ∈ 0 :: (dotPositions rest).map (· + 1) ↔ q ∈ dotPositions rest := by
          simp
        rw [hmem, ih]
        simp [List.getD_cons_succ, Nat.succ_lt_succ_iff]
    · simp only [dotPositions, if_neg hc]
      cases p with
      | zero => simp [hc]
      | succ q =>
        have hmem : q + 1 ∈ (dotPositions rest).map (· + 1) ↔ q ∈ dotPositions rest := by
          simp
        rw [hmem, ih]
        simp [List.getD_cons_succ, Nat.succ_lt_succ_iff]

theorem dotPositions_pairwise (s : List Nat) : (dotPositions s).Pairwise (· < ·) := by
  induction s with
  | nil => simp [dotPositions]
  | cons c rest ih =>
    have hmap : ((dotPositions rest).map (· + 1)).Pairwise (· < ·) :=
      ih.map _ (by intro a b hab; omega)
    by_cases hc : c = dotByte
    · simp only [dotPositions, if_pos hc]
      refine List.Pairwise.cons ?_ hmap
      intro b hb
      rcases List.mem_map.mp hb with ⟨a, _, rfl⟩
      omega
    · simpa only [dotPositions, if_neg hc] using hmap

theorem getLast?_eq_some_dot (s : List Nat) (hne : s ≠ []) :
    s.getLast? = some dotByte ↔ s.getD (s.length - 1) 0 = dotByte := by
  have hlen : s.length - 1 < s.length := by
    cases s with
    | nil => exact absurd rfl hne
    | cons a l => simp
  rw [List.getLast?_eq_getElem? s, List.getElem?_eq_getElem hlen,
    List.getD_eq_getElem?_getD, List.getElem?_eq_getElem hlen]
  simp

theorem split_jws_isSome_elim (s : List Nat) (h : (split_jws s).isSome) :
    ∃ i j, dotPositions s = [i, j] ∧ j ≠ s.length - 1 := by
  unfold split_jws at h
  rcases hds : dotPositions s with _ | ⟨i, t⟩
  · rw [hds] at h; simp at h
  · rcases t with _ | ⟨j, t2⟩
    · rw [hds] at h; simp at h
    · rcases t2 with _ | ⟨k, t3⟩
      · rw [hds] at h
        dsimp only at h
        by_cases hjl : j = s.length - 1
        · rw [if_pos hjl] at h; simp at h
        · exact ⟨i, j, rfl, hjl⟩
      · rw [hds] at h; simp at h

theorem split_jws_isSome_iff (s : List Nat) :
    (split_jws s).isSome ↔ s.count dotByte = 2 ∧ s.getLast? ≠ some dotByte := by
  constructor
  · intro hsome
    obtain ⟨i, j, hds, hjne⟩ := split_jws_isSome_elim s hsome
    have hcount : s.count dotByte = 2 := by
      rw [← dotPositions_length, hds]; rfl
    refine ⟨hcount, ?_⟩
    intro hlast
    have hne : s ≠ [] := by
      intro hnil; subst hnil; simp at hlast
    have hdlast := (getLast?_eq_some_dot s hne).mp hlast
    have hlenpos : 0 < s.length := List.length_pos.mpr hne
    have hmem := (mem_dotPositions s (s.length - 1)).mpr ⟨by omega, hdlast⟩
    rw [hds] at hmem
    have hpair := dotPositions_pairwise s
    rw [hds] at hpair
    have hij : i < j := (List.pairwise_cons.mp hpair).1 j (by simp)
    have hjlen : j < s.length := ((mem_dotPositions s j).mp (by rw [hds]; simp)).1
    rcases List.mem_cons.mp hmem with h1 | h2
    · omega
    · simp at h2; omega
  · rintro ⟨hcount, hlast⟩
    have hlen2 : (dotPositions s).length = 2 := by rw [dotPositions_length]; exact hcount
    obtain ⟨i, j, hds⟩ := List.length_eq_two.mp hlen2
    have hj := (mem_dotPositions s j).mp (by rw [hds]; simp)
    have hne : s ≠ [] := by
      intro hnil; subst hnil; simp at hj
    have hjne : j ≠ s.length - 1 := by
      intro hEq
      apply hlast
      refine (getLast?_eq_some_dot s hne).mpr ?_
      rw [← hEq]; exact hj.2
    unfold split_jws
    rw [hds]
    simp [hjne]

theorem split_jws_segments (s h p g : List Nat) (hs : split_jws s = some (h, p, g)) :
    s = h ++ dotByte :: p ++ dotByte :: g := by
  obtain ⟨i, j, hds, hjne⟩ := split_jws_isSome_elim s (by rw [hs]; rfl)
  unfold split_jws at hs
  rw [hds] at hs
  dsimp only at hs
  rw [if_neg hjne] at hs
  simp only [Option.some.injEq, Prod.mk.injEq] at hs
  obtain ⟨rfl, rfl, rfl⟩ := hs
  have hpair := dotPositions_pairwise s
  rw [hds] at hpair
  have hij : i < j := (List.pairwise_cons.mp hpair).1 j (by simp)
  have hi := (mem_dotPositions s i).mp (by rw [hds]; simp)
  have hj := (mem_dotPositions s j).mp (by rw [hds]; simp)
  have hilen : i < s.length := hi.1
  have hjlen : j < s.length := hj.1
  have hidot : s[i] = dotByte := by
    have h2 := hi.2
    rwa [List.getD_eq_getElem?_getD, List.getElem?_eq_getElem hilen, Option.getD_some] at h2
  have hjdot : s[j] = dotByte := by
    have h2 := hj.2
    rwa [List.getD_eq_getElem?_getD, List.getElem?_eq_getElem hjlen, Option.getD_some] at h2
  have hsum : (i + 1) + (j - i - 1) = j := by omega
  calc s = s.take i ++ s.drop i := (List.take_append_drop i s).symm
    _ = s.take i ++ (s[i] :: s.drop (i + 1)) := by rw [← List.drop_eq_getElem_cons hilen]
    _ = s.take i ++ (dotByte :: s.drop (i + 1)) := by rw [hidot]
    _ = s.take i
        ++ (dotByte :: ((s.drop (i + 1)).take (j - i - 1) ++ (s.drop (i + 1)).drop (j - i - 1)))
        := by rw [List.take_append_drop]
    _ = s.take i ++ (dotByte :: ((s.drop (i + 1)).take (j - i - 1) ++ s.drop j)) := by
        rw [List.drop_drop, hsum]
    _ = s.take i ++ (dotByte :: ((s.drop (i + 1)).take (j - i - 1) ++ (s[j] :: s.drop (j + 1))))
        := by rw [← List.drop_eq_getElem_cons hjlen]
    _ = s.take i ++ (dotByte :: ((s.drop (i + 1)).take (j - i - 1) ++ (dotByte :: s.drop (j + 1))))
        := by rw [hjdot]
    _ = s.take i ++ ((dotByte :: (s.drop (i + 1)).take (j - i - 1)) ++ (dotByte :: s.drop (j + 1)))
        := by rw [List.cons_append]
    _ = (s.take i ++ (dotByte :: (s.drop (i + 1)).take (j - i - 1))) ++ (dotByte :: s.drop (j + 1))
        := (List.append_assoc _ _ _).symm

theorem root_key_scan_eq_find (ids : List (List Nat)) (kid : List Nat) :
    root_key_scan ids kid
      = (List.range ids.length).find? (fun i => ids.getD i [] == kid) := by
  induction ids with
  | nil => simp [root_key_scan]
  | cons k rest ih =>
    by_cases hk : k = kid
    · subst hk
      simp [root_key_scan, az_span_is_content_equal, List.range_succ_eq_map, List.find?_cons]
    · have hif : (k == kid) = false := beq_eq_false_iff_ne.mpr hk
      simp only [root_key_scan, az_span_is_content_equal, List.length_cons]
      rw [List.range_succ_eq_map, List.find?_cons]
      simp only [hif, Bool.false_eq_true, if_false, List.getD_cons_zero]
      rw [List.find?_map]
      have hcomp : ((fun i => (k :: rest).getD i [] == kid) ∘ Nat.succ)
          = fun i => rest.getD i [] == kid := by
        funext i
        simp [List.getD_cons_succ]
      rw [hcomp, ← ih]

theorem root_key_scan_isSome_iff (ids : List (List Nat)) (kid : List Nat) :
    (root_key_scan ids kid).isSome ↔ kid ∈ ids := by
  induction ids with
  | nil => simp [root_key_scan]
  | cons k rest ih =>
    by_cases hk : k = kid
    · subst hk
      simp [root_key_scan, az_span_is_content_equal]
    · have hif : (k == kid) = false := beq_eq_false_iff_ne.mpr hk
      have hne : kid ≠ k := fun hEq => hk hEq.symm
      simp [root_key_scan, az_span_is_content_equal, hif, ih, List.mem_cons, hne]

theorem alg_guard_eq (algSpan : List Nat)
    (h : ¬((!az_span_is_content_equal algSpan jws_alg_rs256) = true)) :
    algSpan = jws_alg_rs256 := by
  have hb : az_span_is_content_equal algSpan jws_alg_rs256 = true := by
    cases hb : az_span_is_content_equal algSpan jws_alg_rs256
    · exact absurd (by simp [hb]) h
    · rfl
  simpa [az_span_is_content_equal] using hb

theorem tail_ok_alg (crypto : CryptoModel) (jm : JsonB64Model)
    (manifest b64Header b64Payload b64Signature b64N b64E algSpan : List Nat)
    (ws1 : List (Nat × Nat)) :
    resultImpliesRs256 (manifest_authenticate_tail crypto jm manifest b64Header b64Payload
      b64Signature b64N b64E algSpan ws1) := by
  unfold manifest_authenticate_tail
  repeat' split
  all_goals unfold resultImpliesRs256
  all_goals intro hres
  any_goals (refine absurd hres ?_; simp; done)
  all_goals dsimp only at hres ⊢
  all_goals first
    | (rename_i hne
       exact (hne hres).elim)
    | (refine congrArg some (alg_guard_eq algSpan ?_)
       assumption)

theorem verify_ok_alg (crypto : CryptoModel) (jm : JsonB64Model)
    (manifest : List Nat) (rootKeys : List RootKey)
    (b64Header b64Payload b64Signature : List Nat)
    (jwkB64Header jwkB64Payload : List Nat)
    (jwkHeader jwkPayload jwkSignature : List Nat)
    (ws0 : List (Nat × Nat)) :
    resultImpliesRs256 (manifest_authenticate_verify crypto jm manifest rootKeys
      b64Header b64Payload b64Signature jwkB64Header jwkB64Payload
      jwkHeader jwkPayload jwkSignature ws0) := by
  unfold manifest_authenticate_verify
  repeat' split
  all_goals first
    | exact tail_ok_alg _ _ _ _ _ _ _ _ _ _
    | (unfold resultImpliesRs256
       intro hres
       first
         | (refine absurd hres ?_; simp; done)
         | (dsimp only at hres ⊢
            rename_i hne
            exact (hne hres).elim))

theorem manifest_ok_alg (crypto : CryptoModel) (jm : JsonB64Model)
    (manifest jws : List Nat) (rootKeys : List RootKey) (scratchBufferSize : Nat) :
    resultImpliesRs256 (ManifestAuthenticate crypto jm manifest jws rootKeys
      scratchBufferSize) := by
  unfold ManifestAuthenticate
  repeat' split
  all_goals first
    | exact verify_ok_alg _ _ _ _ _ _ _ _ _ _ _ _ _
    | (unfold resultImpliesRs256
       intro hres
       refine absurd hres ?_
       simp)

end AduJws

/-!
Claim theorems.
-/

/-- C1 (code_bug): in `jws_rs256_verify`, when the RSA-PKCS#1v1.5 public
decryption succeeds but the SHA-256 digest computed over the input (all
ones here) differs from the digest recovered from the decrypted signature
at the fixed `jwsPKCS7_PAYLOAD_OFFSET` (all zeros here), the function
still returns `AZ_OK`: the source sets the local `result` to
`AZ_ERROR_NOT_SUPPORTED` and logs the mismatch, but its final statement is
`return AZ_OK`, discarding `result` (SampleAduJWS.cpp lines 288-298), so
the nested-key and outer-manifest signature checks of
`ManifestAuthenticate` accept mismatching digests. -/
theorem claim_C1_rs256_digest_mismatch_returns_ok :
    ((List.replicate AduJws.jwsRSA3072_SIZE 0).drop
          AduJws.jwsPKCS7_PAYLOAD_OFFSET).take AduJws.jwsSHA256_SIZE
        ≠ AduJws.cryptoMismatchDemo.sha256 [7]
    ∧ AduJws.jws_rs256_verify AduJws.cryptoMismatchDemo [7] [9] [3] [4]
        AduJws.jwsSHA_CALCULATION_SCRATCH_SIZE = AduJws.AzResult.ok := by
  constructor
  · decide
  · decide

/-- C2 counterexample: with a zero-length scratch buffer (smaller than
`jwsSCRATCH_BUFFER_SIZE`) and a well-formed token `"a.b.c"`,
`ManifestAuthenticate` is not stopped by any size check: it writes one
decoded byte at offset 0 — past the end of the empty buffer — and returns
`AZ_ERROR_ITEM_NOT_FOUND` (the `sjwk` lookup failure), not the
insufficient-space error the claim requires before any write. -/
theorem claim_C2_counterexample :
    (0 : Nat) < AduJws.jwsSCRATCH_BUFFER_SIZE
    ∧ (AduJws.ManifestAuthenticate AduJws.cryptoMatchDemo AduJws.jmStubDemo []
        [97, 46, 98, 46, 99] [] 0).writes = [(0, 1)]
    ∧ (AduJws.ManifestAuthenticate AduJws.cryptoMatchDemo AduJws.jmStubDemo []
        [97, 46, 98, 46, 99] [] 0).result ≠ AduJws.AzResult.errNotEnoughSpace := by
  refine ⟨by decide, by decide, by decide⟩

/-- C2 (amended): `ManifestAuthenticate` never consults the size of the
caller's scratch buffer — its result and its entire write log are
identical for every buffer size, so an undersized buffer is not detected,
no insufficient-space error is raised on its account, and (as the
concrete run shows) bytes are written at fixed offsets regardless of the
buffer's real extent; the only `AZ_ERROR_NOT_ENOUGH_SPACE` conditions are
checks of the fixed-size sub-spans carved out of it. -/
theorem claim_C2_scratch_size_never_checked :
    (∀ (crypto : AduJws.CryptoModel) (jm : AduJws.JsonB64Model)
        (manifest jws : List Nat) (rootKeys : List AduJws.RootKey) (size1 size2 : Nat),
      AduJws.ManifestAuthenticate crypto jm manifest jws rootKeys size1
        = AduJws.ManifestAuthenticate crypto jm manifest jws rootKeys size2)
    ∧ (AduJws.ManifestAuthenticate AduJws.cryptoMatchDemo AduJws.jmStubDemo []
        [97, 46, 98, 46, 99] [] 0).result = AduJws.AzResult.errItemNotFound :=
  ⟨fun _ _ _ _ _ _ _ => rfl, by decide⟩

/-- C3: `ManifestAuthenticate` returns `AZ_OK` only when the `alg`
property extracted from the nested signing-key payload was found and is
byte-for-byte the literal `"RS256"`: an absent `alg` (a failing
`find_key_parts`) yields `AZ_ERROR_ITEM_NOT_FOUND`, and any other value
fails the content-equality check against `jws_alg_rs256` with
`AZ_ERROR_NOT_SUPPORTED` — no algorithm negotiation. -/
theorem claim_C3_manifest_requires_rs256 :
    ∀ (crypto : AduJws.CryptoModel) (jm : AduJws.JsonB64Model)
      (manifest jws : List Nat) (rootKeys : List AduJws.RootKey)
      (scratchBufferSize : Nat),
      (AduJws.ManifestAuthenticate crypto jm manifest jws rootKeys
          scratchBufferSize).result = AduJws.AzResult.ok →
      (AduJws.ManifestAuthenticate crypto jm manifest jws rootKeys
          scratchBufferSize).algSpan = some AduJws.jws_alg_rs256 :=
  fun crypto jm manifest jws rootKeys size h =>
    AduJws.manifest_ok_alg crypto jm manifest jws rootKeys size h

/-- C3 witness: a complete successful authentication run, whose recorded
`alg` value the claim theorem then pins to `"RS256"`. -/
theorem claim_C3_witness :
    (AduJws.ManifestAuthenticate AduJws.cryptoMatchDemo AduJws.jmFullDemo []
        [97, 46, 98, 46, 99] [AduJws.rootKeyDemo]
        AduJws.jwsSCRATCH_BUFFER_SIZE).result = AduJws.AzResult.ok
    ∧ (AduJws.ManifestAuthenticate AduJws.cryptoMatchDemo AduJws.jmFullDemo []
        [97, 46, 98, 46, 99] [AduJws.rootKeyDemo]
        AduJws.jwsSCRATCH_BUFFER_SIZE).algSpan = some AduJws.jws_alg_rs256 :=
  ⟨by decide,
   claim_C3_manifest_requires_rs256 AduJws.cryptoMatchDemo AduJws.jmFullDemo []
     [97, 46, 98, 46, 99] [AduJws.rootKeyDemo] AduJws.jwsSCRATCH_BUFFER_SIZE (by decide)⟩

/-- C4: root-key resolution matches by exact byte equality only: the scan
of `validate_root_key` is a linear first-match search over the root-key
ids (`find?` over the indices in order), it succeeds exactly when some id
is byte-for-byte equal to the kid, and a root-key array containing only
id `"A"` fails (`AZ_ERROR_NOT_SUPPORTED`) against the kid `"A "` with a
trailing space — no trimming, prefix or fuzzy matching. -/
theorem claim_C4_root_key_exact_match :
    (∀ (ids : List (List Nat)) (kid : List Nat),
      AduJws.root_key_scan ids kid
        = (List.range ids.length).find? (fun i => ids.getD i [] == kid))
    ∧ (∀ (ids : List (List Nat)) (kid : List Nat),
      (AduJws.root_key_scan ids kid).isSome ↔ kid ∈ ids)
    ∧ AduJws.validate_root_key (fun _ => some [65, 32]) [] [AduJws.rootKeyDemo]
        = Except.error AduJws.AzResult.errNotSupported :=
  ⟨AduJws.root_key_scan_eq_find, AduJws.root_key_scan_isSome_iff, rfl⟩

/-- C5: `split_jws` succeeds iff the input has exactly two dot bytes and
the second dot is not the last byte (equivalently, the input does not end
in a dot when it has exactly two); on success the three returned segments
reassemble the input as `header ++ "." ++ payload ++ "." ++ signature`;
and on the four concrete examples: `"aaa.bbb.ccc"` splits into
`("aaa","bbb","ccc")` while `"aaa.bbb"`, `"aaa.bbb.ccc.ddd"` and
`"aaa.bbb."` all fail. -/
theorem claim_C5_split_jws :
    (∀ s : List Nat, (AduJws.split_jws s).isSome
        ↔ (s.count AduJws.dotByte = 2 ∧ s.getLast? ≠ some AduJws.dotByte))
    ∧ (∀ s h p g : List Nat, AduJws.split_jws s = some (h, p, g) →
        s = h ++ AduJws.dotByte :: p ++ AduJws.dotByte :: g)
    ∧ AduJws.split_jws [97, 97, 97, 46, 98, 98, 98, 46, 99, 99, 99]
        = some ([97, 97, 97], [98, 98, 98], [99, 99, 99])
    ∧ AduJws.split_jws [97, 97, 97, 46, 98, 98, 98] = none
    ∧ AduJws.split_jws [97, 97, 97, 46, 98, 98, 98, 46, 99, 99, 99, 46, 100, 100, 100] = none
    ∧ AduJws.split_jws [97, 97, 97, 46, 98, 98, 98, 46] = none :=
  ⟨AduJws.split_jws_isSome_iff, AduJws.split_jws_segments,
   by decide, by decide, by decide, by decide⟩

/-- C5 witness: the successful split of `"aaa.bbb.ccc"` reassembles it. -/
theorem claim_C5_witness :
    ([97, 97, 97, 46, 98, 98, 98, 46, 99, 99, 99] : List Nat)
      = [97, 97, 97] ++ AduJws.dotByte :: [98, 98, 98] ++ AduJws.dotByte :: [99, 99, 99] :=
  claim_C5_split_jws.2.1 [97, 97, 97, 46, 98, 98, 98, 46, 99, 99, 99]
    [97, 97, 97] [98, 98, 98] [99, 99, 99] (by decide)

namespace AzureIoTCore

/-- C6 counterexample: a ready machine whose token is far from expiry
(so the claim's refresh condition is false and the claim demands an
unchanged state) is ticked while the wall clock is unavailable
(`get_current_unix_time` = 0): the tick moves the machine to `error`, so
the state is not unchanged and the claim as stated is false. -/
theorem claim_C6_counterexample :
    readyTickMachine.state = ClientState.ready
    ∧ ¬ ((Int.ofNat readyTickMachine.sasTokenExpirationTime - Int.ofNat clockFailEnv.now)
        < Int.ofNat SAS_TOKEN_REFRESH_THRESHOLD_IN_SECS)
    ∧ (azure_iot_do_work readyTickMachine clockFailEnv).1 ≠ readyTickMachine := by
  decide

/-- C6 (amended): for every `azure_iot_do_work` tick in `ready`: when the
wall clock is available and `(expiration - now) < 30` the tick invokes
the transport deinit callback and ends in `refreshing-credentials` with
the handle cleared when deinit succeeds, in `error` when deinit fails;
when the clock is available and the difference is at least 30 the machine
is unchanged and no deinit is issued; when the clock is unavailable
(`now = 0`) the tick moves to `error` without invoking deinit. -/
theorem claim_C6_ready_tick :
    ∀ (m : AzureIoT) (env : DoWorkEnv), m.state = .ready →
      (env.now = 0 → azure_iot_do_work m env = ({ m with state := .error }, false))
      ∧ (env.now ≠ 0 →
          ((Int.ofNat m.sasTokenExpirationTime - Int.ofNat env.now)
              < Int.ofNat SAS_TOKEN_REFRESH_THRESHOLD_IN_SECS →
            azure_iot_do_work m env
              = (if env.deinitOk then ({ m with state := .refreshingSas, mqttHandle := false }, true)
                 else ({ m with state := .error }, true)))
          ∧ (¬ ((Int.ofNat m.sasTokenExpirationTime - Int.ofNat env.now)
              < Int.ofNat SAS_TOKEN_REFRESH_THRESHOLD_IN_SECS) →
              azure_iot_do_work m env = (m, false))) := by
  intro m env hready
  obtain ⟨s, hh, he, hq, hr, ho, hu, hp⟩ := m
  simp only at hready
  subst hready
  refine ⟨?_, ?_⟩
  · intro hnow
    simp only [azure_iot_do_work]
    rw [if_pos hnow]
  · intro hnow
    constructor
    · intro hlt
      simp only [azure_iot_do_work]
      rw [if_neg hnow, if_pos hlt]
    · intro hge
      simp only [azure_iot_do_work]
      rw [if_neg hnow, if_neg hge]

/-- C6 witness: a ready machine within the refresh threshold
(expiration 1000, now 990) is moved to `refreshing-credentials` with the
deinit callback invoked. -/
theorem claim_C6_witness :
    azure_iot_do_work readyTickMachine
        { clockFailEnv with now := 990 }
      = ({ readyTickMachine with state := .refreshingSas, mqttHandle := false }, true) := by
  have h := ((claim_C6_ready_tick readyTickMachine { clockFailEnv with now := 990 } rfl).2
      (by decide)).1 (by decide)
  simpa using h

/-- C7 counterexample: stopping a ready machine with a live transport
handle while the deinit callback fails leaves the machine in `error`, not
in `initialized` as the claim requires of every prior state other than
not-initialized. -/
theorem claim_C7_counterexample :
    stopCounterMachine.state ≠ ClientState.notInited
    ∧ (azure_iot_stop stopCounterMachine false).1.state ≠ ClientState.inited := by
  decide

/-- C7 (amended): for every prior state other than not-initialized,
`azure_iot_stop` clears the transport handle and invokes the deinit
callback exactly when a handle is present; it returns the machine to
`initialized` with success when no handle is present or deinit succeeds,
and moves to `error` with an error result when deinit fails (handle still
cleared).  Called in not-initialized it fails and changes nothing. -/
theorem claim_C7_stop :
    (∀ (m : AzureIoT) (deinitOk : Bool), m.state ≠ .notInited →
      ((azure_iot_stop m deinitOk).2.1 = .ok ↔ (m.mqttHandle = false ∨ deinitOk = true))
      ∧ (azure_iot_stop m deinitOk).1.state
          = (if m.mqttHandle && !deinitOk then .error else .inited)
      ∧ (azure_iot_stop m deinitOk).1.mqttHandle = false
      ∧ ((azure_iot_stop m deinitOk).2.2 = m.mqttHandle))
    ∧ ∀ (m : AzureIoT) (deinitOk : Bool), m.state = .notInited →
        azure_iot_stop m deinitOk = (m, .err, false) := by
  constructor
  · intro m deinitOk hne
    unfold azure_iot_stop
    rw [if_neg hne]
    by_cases hh : m.mqttHandle
    · cases deinitOk <;> simp [hh]
    · simp at hh
      simp [hh]
  · intro m deinitOk hs
    unfold azure_iot_stop
    rw [if_pos hs]

/-- C7 witness: stopping the ready machine with a succeeding deinit
callback returns it to `initialized`. -/
theorem claim_C7_witness :
    (azure_iot_stop stopCounterMachine true).1.state = ClientState.inited := by
  have h := (claim_C7_stop.1 stopCounterMachine true (by decide)).2.1
  simpa using h

/-- C8: the disconnect-completed handler never reports an error: for
every machine it returns `RESULT_OK`, moving to `provisioned` when the
state was `refreshing-credentials` (re-entering the hub connect flow) and
to `initialized` otherwise, leaving the transport handle and the stored
expiration time untouched. -/
theorem claim_C8_disconnected :
    ∀ m : AzureIoT,
      (azure_iot_mqtt_client_disconnected m).2 = CallRes.ok
      ∧ (azure_iot_mqtt_client_disconnected m).1.state
          = (if m.state = .refreshingSas then .provisioned else .inited)
      ∧ (azure_iot_mqtt_client_disconnected m).1.mqttHandle = m.mqttHandle
      ∧ (azure_iot_mqtt_client_disconnected m).1.sasTokenExpirationTime
          = m.sasTokenExpirationTime := by
  intro m
  unfold azure_iot_mqtt_client_disconnected
  by_cases hs : m.state = .refreshingSas
  · simp [hs]
  · simp [hs]

/-- C9: the subscribe-completed handler advances exactly one step of the
subscribing chain — `subscribing-to-provisioning` to
`subscribed-to-provisioning`, `subscribing-to-commands` to
`subscribed-to-commands`, `subscribing-to-properties` to
`subscribed-to-properties`, `subscribing-to-writable-properties` to
`ready` — and from any state outside the chain it returns an error code
only, leaving the whole machine unchanged. -/
theorem claim_C9_subscribe_completed :
    (∀ m : AzureIoT, m.state = .subscribingToDps →
      azure_iot_mqtt_client_subscribe_completed m = ({ m with state := .subscribedToDps }, .ok))
    ∧ (∀ m : AzureIoT, m.state = .subscribingToPnpCmds →
      azure_iot_mqtt_client_subscribe_completed m = ({ m with state := .subscribedToPnpCmds }, .ok))
    ∧ (∀ m : AzureIoT, m.state = .subscribingToPnpProps →
      azure_iot_mqtt_client_subscribe_completed m = ({ m with state := .subscribedToPnpProps }, .ok))
    ∧ (∀ m : AzureIoT, m.state = .subscribingToPnpWritableProps →
      azure_iot_mqtt_client_subscribe_completed m = ({ m with state := .ready }, .ok))
    ∧ (∀ m : AzureIoT, m.state ∉ subscribingChain →
      azure_iot_mqtt_client_subscribe_completed m = (m, .err)) := by
  refine ⟨?_, ?_, ?_, ?_, ?_⟩ <;> intro m hs <;>
    unfold azure_iot_mqtt_client_subscribe_completed
  · rw [if_pos hs]
  · rw [if_neg (by rw [hs]; decide), if_pos hs]
  · rw [if_neg (by rw [hs]; decide), if_neg (by rw [hs]; decide), if_pos hs]
  · rw [if_neg (by rw [hs]; decide), if_neg (by rw [hs]; decide), if_neg (by rw [hs]; decide),
      if_pos hs]
  · simp only [subscribingChain, List.mem_cons, List.mem_singleton] at hs
    push_neg at hs
    obtain ⟨h1, h2, h3, h4, -⟩ := hs
    rw [if_neg h1, if_neg h2, if_neg h3, if_neg h4]

/-- C9 witness: a subscribe ack arriving in `ready` (outside the chain)
returns an error and leaves the machine unchanged. -/
theorem claim_C9_witness :
    azure_iot_mqtt_client_subscribe_completed stopCounterMachine
      = (stopCounterMachine, CallRes.err) :=
  claim_C9_subscribe_completed.2.2.2.2 stopCounterMachine (by decide)

/-- C10: when the message handler parses a provisioning response in the
waiting-for-provisioning-response state whose operation status is
terminal but not `assigned`, it sets the state to `error` yet returns
`RESULT_OK` (0), so the caller can only observe the failure through the
status accessor, which then reports the error status. -/
theorem claim_C10_terminal_provisioning_failure :
    ∀ (m : AzureIoT) (env : MsgEnv), m.state = .provisioningWaiting →
      env.dpsParseOk = true → env.operationComplete = true → env.statusAssigned = false →
      azure_iot_mqtt_client_message_received m env = ({ m with state := .error }, CallRes.ok)
      ∧ azure_iot_get_status (azure_iot_mqtt_client_message_received m env).1
          = ConnStatus.statusError := by
  intro m env hs hparse hcomplete hassigned
  have heq : azure_iot_mqtt_client_message_received m env = ({ m with state := .error }, .ok) := by
    unfold azure_iot_mqtt_client_message_received
    rw [if_neg (by rw [hs]; decide), if_pos hs]
    simp [hparse, hcomplete, hassigned]
  refine ⟨heq, ?_⟩
  rw [heq]
  rfl

/-- C10 witness: the concrete terminal-failure response in the waiting
state yields (`error` state, `RESULT_OK`). -/
theorem claim_C10_witness :
    azure_iot_mqtt_client_message_received provWaitingMachine provFailEnv
      = ({ provWaitingMachine with state := .error }, CallRes.ok) :=
  (claim_C10_terminal_provisioning_failure provWaitingMachine provFailEnv rfl rfl rfl rfl).1

end AzureIoTCore
